import Mathlib

/-!
Verification of the `neo_sample.py` demonstration script and the design
specification of the session-authenticated streaming market-data client it
exercises.  The script is straight-line glue code with early returns, so we
embed an execution of its `main` function as the list of interactions it
performs with the `NeoAPI` client, parametrised by the contents of the
environment variables it reads and by which client calls raise exceptions.
The client library itself is an external dependency, so the spec-level
components it must implement (auth state machine, subscription manager,
event dispatcher) are modelled from the specification text where a claim
needs them.
-/

namespace NeoSample

/-- An instrument entry, as passed to `subscribe` / `un_subscribe` in the
script: a dict with keys `instrument_token` and `exchange_segment`. -/
structure Instrument where
  instrument_token : String
  exchange_segment : String
deriving DecidableEq, Repr

/-- The four WebSocket event-handler kinds assigned in the script and listed
by the Event Dispatcher section of the spec. -/
inductive HandlerKind where
  | onOpen
  | onClose
  | onError
  | onMessage
deriving DecidableEq, Repr

/-- One observable interaction of `main` with the `NeoAPI` client (or with
`time.sleep`): constructor arguments record the arguments the script passes
at the corresponding call site. -/
inductive Event where
  | initClient (environment : String) (consumer_key : String)
      (access_token : Option String) (neo_fin_key : Option String)
  | totp_login (mobile_number : String) (ucc : String) (totp : String)
  | totp_validate (mpin : String)
  | order_report
  | setHandler (kind : HandlerKind)
  | subscribe (instrument_tokens : List Instrument) (isIndex : Bool) (isDepth : Bool)
  | sleep (seconds : Nat)
  | un_subscribe (instrument_tokens : List Instrument) (isIndex : Bool)
  | logout
deriving DecidableEq, Repr

/-- The environment variables the script reads via `os.getenv`; `none`
means the variable is unset. -/
structure Env where
  neo_consumer_key : Option String
  neo_mobile_number : Option String
  neo_ucc : Option String
  neo_mpin : Option String
  neo_totp : Option String

/-- `os.getenv(var, dflt)`: the variable's value when set, else the default. -/
def getenv (v : Option String) (dflt : String) : String := v.getD dflt

/-- `consumer_key = os.getenv("NEO_CONSUMER_KEY", "YOUR_TOKEN")` (line 19). -/
def consumer_key (env : Env) : String := getenv env.neo_consumer_key "YOUR_TOKEN"

/-- `mobile_number = os.getenv("NEO_MOBILE_NUMBER", "")` (line 20). -/
def mobile_number (env : Env) : String := getenv env.neo_mobile_number ""

/-- `ucc = os.getenv("NEO_UCC", "")` (line 21). -/
def ucc (env : Env) : String := getenv env.neo_ucc ""

/-- `mpin = os.getenv("NEO_MPIN", "")` (line 22). -/
def mpin (env : Env) : String := getenv env.neo_mpin ""

/-- `totp = os.getenv("NEO_TOTP", "")` (line 23). -/
def totp (env : Env) : String := getenv env.neo_totp ""

/-- Python truthiness of a string: every string is truthy except `""`. -/
def truthy (s : String) : Bool := s ≠ ""

/-- Which of the client calls made by `main` raise an exception in a given
run.  Each field corresponds to one call site; the script wraps each call in
its own `try`/`except` (or shares one, for `subscribe`/`un_subscribe`). -/
structure ApiBehavior where
  loginRaises : Bool
  validateRaises : Bool
  orderReportRaises : Bool
  subscribeRaises : Bool
  unsubscribeRaises : Bool
  logoutRaises : Bool

/-- The `instrument_tokens` list built at lines 112–114 of the script. -/
def instrument_tokens : List Instrument :=
  [{ instrument_token := "26000", exchange_segment := "nse_cm" }]

/-- The trace of client interactions performed by `main()` (lines 43–142),
given the environment and which calls raise.  Mirrors the source
control flow: construct the client; return early if `not all([mobile_number,
ucc, totp])`; call `totp_login` and return on exception; return early if
`not mpin`; call `totp_validate` and return on exception; call
`order_report` (its exception is caught and execution continues); assign the
four WebSocket handlers; call `subscribe`, and only if it did not raise,
`time.sleep(30)` then `un_subscribe` (a raise from either is caught by the
shared `except`); finally call `logout` (its exception is caught). -/
def main (env : Env) (api : ApiBehavior) : List Event :=
  Event.initClient "prod" (consumer_key env) none none ::
    if ([mobile_number env, ucc env, totp env].all truthy) = false then []
    else
      Event.totp_login (mobile_number env) (ucc env) (totp env) ::
        if api.loginRaises = true then []
        else
          if truthy (mpin env) = false then []
          else
            Event.totp_validate (mpin env) ::
              if api.validateRaises = true then []
              else
                Event.order_report ::
                Event.setHandler HandlerKind.onMessage ::
                Event.setHandler HandlerKind.onError ::
                Event.setHandler HandlerKind.onClose ::
                Event.setHandler HandlerKind.onOpen ::
                Event.subscribe instrument_tokens true false ::
                  ((if api.subscribeRaises = true then []
                    else [Event.sleep 30, Event.un_subscribe instrument_tokens true]) ++
                    [Event.logout])

/-! Spec-modelled components of the external client library.  The `NeoAPI`
library is not part of this repository, so these definitions follow the
specification text (sections 4.2, 4.4, 4.5) rather than source code. -/

/-- Modelled from the spec: the Auth State Machine states
`Unauthenticated → PrimaryVerified → SessionActive → Closed` (spec 4.2);
the library implementing them is not under src/. -/
inductive AuthState where
  | Unauthenticated
  | PrimaryVerified
  | SessionActive
  | Closed
deriving DecidableEq, Repr

/-- Modelled from the spec: the `AuthError` kinds of the error taxonomy
(spec 7); the library implementing them is not under src/. -/
inductive AuthErrorKind where
  | InvalidCredential
  | ExpiredOtp
  | InvalidPin
  | NotPrimaryVerified
  | SessionClosed
deriving DecidableEq, Repr

/-- Modelled from the spec: `validate(pin)` of the Auth State Machine
(spec 4.2) — requires state `PrimaryVerified`; on success transitions to
`SessionActive`; fails with `AuthError(InvalidPin)` on a rejected PIN or
with `AuthError(NotPrimaryVerified)` if called out of order.  The library
implementing it is not under src/.  `pinAccepted` abstracts the identity
provider's verdict on the PIN. -/
def validateStep (st : AuthState) (pinAccepted : Bool) :
    Except AuthErrorKind AuthState :=
  if st = AuthState.PrimaryVerified then
    if pinAccepted then Except.ok AuthState.SessionActive
    else Except.error AuthErrorKind.InvalidPin
  else Except.error AuthErrorKind.NotPrimaryVerified

/-- Modelled from the spec: one entry of the Subscription Set — an
"(instrument identifier, exchange segment, isIndex, isDepth)" tuple
(spec 3); the library implementing it is not under src/. -/
structure SubKey where
  instrument_token : String
  exchange_segment : String
  isIndex : Bool
  isDepth : Bool
deriving DecidableEq, Repr

/-- Modelled from the spec: the error a Streaming Subscription Manager
operation raises when its `Connected` precondition fails (spec 4.4, 8);
the library implementing it is not under src/. -/
inductive StreamErrorKind where
  | notConnected
deriving DecidableEq, Repr

/-- Modelled from the spec: the per-connection state of the Streaming
Subscription Manager — whether the transport is `Connected`, and the
Subscription Set of currently active keys (spec 3, 4.4); the library
implementing it is not under src/. -/
structure StreamState where
  connected : Bool
  subs : List SubKey
deriving DecidableEq, Repr

/-- Modelled from the spec: `subscribe(instruments, isIndex, isDepth)` for a
single key (spec 4.4) — requires `Connected`; adds the key to the
Subscription Set; resubscribing an already-subscribed instrument is a no-op
(no duplicate stream entries).  The library implementing it is not under
src/. -/
def subscribeOp (st : StreamState) (k : SubKey) :
    Except StreamErrorKind StreamState :=
  if st.connected then
    Except.ok { st with subs := if k ∈ st.subs then st.subs else st.subs ++ [k] }
  else Except.error StreamErrorKind.notConnected

/-- Modelled from the spec: `unsubscribe(instruments, isIndex)` for a single
key (spec 4.4) — symmetric to subscribe; removing an entry not present is a
no-op, not an error.  The library implementing it is not under src/. -/
def unsubscribeOp (st : StreamState) (k : SubKey) :
    Except StreamErrorKind StreamState :=
  if st.connected then
    Except.ok { st with subs := st.subs.filter (fun x => x ≠ k) }
  else Except.error StreamErrorKind.notConnected

/-- Modelled from the spec: the Event Dispatcher's handler table — at most
one handler per event kind (spec 4.5); the library implementing it is not
under src/.  `H` is the type of handler values. -/
def Handlers (H : Type) := HandlerKind → Option H

/-- Modelled from the spec: registering a handler by plain property
assignment — overwriting a handler silently replaces the previous one
(spec 4.5); the library implementing it is not under src/. -/
def setHandlerOp {H : Type} (hs : Handlers H) (k : HandlerKind) (h : H) :
    Handlers H :=
  fun q => if q = k then some h else hs q

/-! Concrete inputs used by the witness theorems. -/

/-- An environment with every credential variable set (the spec's scenario
values). -/
def envW : Env :=
  { neo_consumer_key := some "ck"
    neo_mobile_number := some "9999999999"
    neo_ucc := some "UCC01"
    neo_mpin := some "1234"
    neo_totp := some "123456" }

/-- A run in which no client call raises. -/
def apiOk : ApiBehavior :=
  { loginRaises := false
    validateRaises := false
    orderReportRaises := false
    subscribeRaises := false
    unsubscribeRaises := false
    logoutRaises := false }

/-- A run in which order_report, subscribe, un_subscribe and logout all
raise. -/
def apiStreamFails : ApiBehavior :=
  { loginRaises := false
    validateRaises := false
    orderReportRaises := true
    subscribeRaises := true
    unsubscribeRaises := true
    logoutRaises := true }

/-- An environment whose NEO_MOBILE_NUMBER is set to the empty string. -/
def envNoMobile : Env := { envW with neo_mobile_number := some "" }

/-- An environment whose NEO_MPIN variable is unset. -/
def envNoMpin : Env := { envW with neo_mpin := none }

/-- An environment whose NEO_CONSUMER_KEY variable is unset. -/
def envNoCK : Env := { envW with neo_consumer_key := none }

/-- A connected streaming state with an empty Subscription Set. -/
def stW : StreamState := { connected := true, subs := [] }

/-- The Subscription Set key corresponding to the script's subscription
request: instrument "26000" on "nse_cm" with isIndex true, isDepth false. -/
def k26000 : SubKey :=
  { instrument_token := "26000", exchange_segment := "nse_cm"
    isIndex := true, isDepth := false }

end NeoSample

namespace NeoSample

/-! Helper lemmas shared by the claim proofs: the full success trace of
`main`, and inversion lemmas recovering from the presence of an event in a
trace the conditions the control flow needed to reach it. -/

theorem main_ok_eq (env : Env) (api : ApiBehavior)
    (hm : truthy (mobile_number env) = true)
    (hu : truthy (ucc env) = true)
    (ht : truthy (totp env) = true)
    (hp : truthy (mpin env) = true)
    (hl : api.loginRaises = false)
    (hv : api.validateRaises = false)
    (hs : api.subscribeRaises = false) :
    main env api =
      [Event.initClient "prod" (consumer_key env) none none,
       Event.totp_login (mobile_number env) (ucc env) (totp env),
       Event.totp_validate (mpin env),
       Event.order_report,
       Event.setHandler HandlerKind.onMessage,
       Event.setHandler HandlerKind.onError,
       Event.setHandler HandlerKind.onClose,
       Event.setHandler HandlerKind.onOpen,
       Event.subscribe instrument_tokens true false,
       Event.sleep 30,
       Event.un_subscribe instrument_tokens true,
       Event.logout] := by
  simp [main, hm, hu, ht, hp, hl, hv, hs]

theorem validate_mem_inv (env : Env) (api : ApiBehavior) (m : String)
    (h : Event.totp_validate m ∈ main env api) :
    truthy (mobile_number env) = true ∧ truthy (ucc env) = true ∧
    truthy (totp env) = true ∧ api.loginRaises = false ∧
    truthy (mpin env) = true ∧ m = mpin env := by
  cases hm : truthy (mobile_number env) <;>
  cases hu : truthy (ucc env) <;>
  cases ht : truthy (totp env) <;>
  cases hl : api.loginRaises <;>
  cases hp : truthy (mpin env) <;>
  cases hv : api.validateRaises <;>
  cases hs : api.subscribeRaises <;>
    simp_all [main]

theorem subscribe_mem_inv (env : Env) (api : ApiBehavior)
    (h : Event.subscribe instrument_tokens true false ∈ main env api) :
    truthy (mobile_number env) = true ∧ truthy (ucc env) = true ∧
    truthy (totp env) = true ∧ api.loginRaises = false ∧
    truthy (mpin env) = true ∧ api.validateRaises = false := by
  cases hm : truthy (mobile_number env) <;>
  cases hu : truthy (ucc env) <;>
  cases ht : truthy (totp env) <;>
  cases hl : api.loginRaises <;>
  cases hp : truthy (mpin env) <;>
  cases hv : api.validateRaises <;>
  cases hs : api.subscribeRaises <;>
    simp_all [main]

theorem unsub_mem_inv (env : Env) (api : ApiBehavior)
    (h : Event.un_subscribe instrument_tokens true ∈ main env api) :
    truthy (mobile_number env) = true ∧ truthy (ucc env) = true ∧
    truthy (totp env) = true ∧ api.loginRaises = false ∧
    truthy (mpin env) = true ∧ api.validateRaises = false ∧
    api.subscribeRaises = false := by
  cases hm : truthy (mobile_number env) <;>
  cases hu : truthy (ucc env) <;>
  cases ht : truthy (totp env) <;>
  cases hl : api.loginRaises <;>
  cases hp : truthy (mpin env) <;>
  cases hv : api.validateRaises <;>
  cases hs : api.subscribeRaises <;>
    simp_all [main]

end NeoSample

namespace NeoSample

/-- C1: validate is never invoked before a successful login — whenever a
`totp_validate` call occurs in a run of `main`, the `totp_login` call
returned successfully (`loginRaises = false`) and occurs strictly earlier in
the trace; and in the spec's auth state machine, calling validate from the
`Unauthenticated` state fails with `AuthError(NotPrimaryVerified)` whatever
the PIN verdict, so no partial session is produced. -/
theorem validate_only_after_successful_login (env : Env) (api : ApiBehavior)
    (m : String) (h : Event.totp_validate m ∈ main env api) :
    api.loginRaises = false ∧
    (∃ i j : Nat, i < j ∧
      (main env api).get? i =
        some (Event.totp_login (mobile_number env) (ucc env) (totp env)) ∧
      (main env api).get? j = some (Event.totp_validate m)) ∧
    (∀ acc : Bool, validateStep AuthState.Unauthenticated acc =
      Except.error AuthErrorKind.NotPrimaryVerified) := by
  obtain ⟨hm, hu, ht, hl, hp, hmeq⟩ := validate_mem_inv env api m h
  refine ⟨hl, ⟨1, 2, by omega, ?_, ?_⟩, fun acc => rfl⟩ <;>
    simp [main, hm, hu, ht, hl, hp, hmeq]

/-- Witness for C1 at the spec's scenario credentials with no call
raising. -/
theorem validate_only_after_successful_login_witness :
    apiOk.loginRaises = false ∧
    (∃ i j : Nat, i < j ∧
      (main envW apiOk).get? i =
        some (Event.totp_login (mobile_number envW) (ucc envW) (totp envW)) ∧
      (main envW apiOk).get? j = some (Event.totp_validate "1234")) ∧
    (∀ acc : Bool, validateStep AuthState.Unauthenticated acc =
      Except.error AuthErrorKind.NotPrimaryVerified) :=
  validate_only_after_successful_login envW apiOk "1234" (by decide)

/-- C2: when the credential sequence succeeds (all credential variables
truthy, and login, validate and subscribe do not raise), `main` performs
exactly, in order: client construction, `totp_login`, `totp_validate`,
`order_report`, the four handler assignments, `subscribe` with exactly the
one-element instrument list `[{"instrument_token": "26000",
"exchange_segment": "nse_cm"}]` with isIndex true and isDepth false,
`sleep 30`, `un_subscribe` of the same list with isIndex true, and
`logout`; and in the spec's subscription manager, that subscribe request
adds exactly one entry to an empty Subscription Set. -/
theorem main_success_scenario (env : Env) (api : ApiBehavior)
    (hm : truthy (mobile_number env) = true)
    (hu : truthy (ucc env) = true)
    (ht : truthy (totp env) = true)
    (hp : truthy (mpin env) = true)
    (hl : api.loginRaises = false)
    (hv : api.validateRaises = false)
    (hs : api.subscribeRaises = false) :
    main env api =
      [Event.initClient "prod" (consumer_key env) none none,
       Event.totp_login (mobile_number env) (ucc env) (totp env),
       Event.totp_validate (mpin env),
       Event.order_report,
       Event.setHandler HandlerKind.onMessage,
       Event.setHandler HandlerKind.onError,
       Event.setHandler HandlerKind.onClose,
       Event.setHandler HandlerKind.onOpen,
       Event.subscribe
         [{ instrument_token := "26000", exchange_segment := "nse_cm" }]
         true false,
       Event.sleep 30,
       Event.un_subscribe
         [{ instrument_token := "26000", exchange_segment := "nse_cm" }]
         true,
       Event.logout] ∧
    subscribeOp { connected := true, subs := [] } k26000 =
      Except.ok { connected := true, subs := [k26000] } := by
  exact ⟨main_ok_eq env api hm hu ht hp hl hv hs, rfl⟩

/-- Witness for C2 at the spec's scenario credentials with no call
raising. -/
theorem main_success_scenario_witness :
    main envW apiOk =
      [Event.initClient "prod" (consumer_key envW) none none,
       Event.totp_login (mobile_number envW) (ucc envW) (totp envW),
       Event.totp_validate (mpin envW),
       Event.order_report,
       Event.setHandler HandlerKind.onMessage,
       Event.setHandler HandlerKind.onError,
       Event.setHandler HandlerKind.onClose,
       Event.setHandler HandlerKind.onOpen,
       Event.subscribe
         [{ instrument_token := "26000", exchange_segment := "nse_cm" }]
         true false,
       Event.sleep 30,
       Event.un_subscribe
         [{ instrument_token := "26000", exchange_segment := "nse_cm" }]
         true,
       Event.logout] ∧
    subscribeOp { connected := true, subs := [] } k26000 =
      Except.ok { connected := true, subs := [k26000] } :=
  main_success_scenario envW apiOk (by decide) (by decide) (by decide)
    (by decide) rfl rfl rfl

/-- C3: in every run, `order_report` is called at most once (no retry on
error), and whenever it is called — raising or not — execution still
proceeds to the streaming steps (`subscribe`) and to `logout`. -/
theorem order_report_at_most_once (env : Env) (api : ApiBehavior) :
    (main env api).count Event.order_report ≤ 1 ∧
    (Event.order_report ∈ main env api →
      Event.subscribe instrument_tokens true false ∈ main env api ∧
      Event.logout ∈ main env api) := by
  cases hm : truthy (mobile_number env) <;>
  cases hu : truthy (ucc env) <;>
  cases ht : truthy (totp env) <;>
  cases hl : api.loginRaises <;>
  cases hp : truthy (mpin env) <;>
  cases hv : api.validateRaises <;>
  cases hs : api.subscribeRaises <;>
    simp_all [main, List.count_cons]

/-- Witness for C3 in a run where order_report raises. -/
theorem order_report_at_most_once_witness :
    (main envW apiStreamFails).count Event.order_report ≤ 1 ∧
    (Event.subscribe instrument_tokens true false ∈ main envW apiStreamFails ∧
     Event.logout ∈ main envW apiStreamFails) :=
  ⟨(order_report_at_most_once envW apiStreamFails).1,
   (order_report_at_most_once envW apiStreamFails).2 (by decide)⟩

/-- C4: missing-credential validation is local — if any of mobile_number,
ucc or totp is the empty string, `main` returns after constructing the
client and before any `totp_login` call; if mpin is the empty string, no
`totp_validate` call ever occurs, and when the primary credentials are
present and login succeeded the run stops right after `totp_login`. -/
theorem missing_credentials_local (env : Env) (api : ApiBehavior) :
    ((mobile_number env = "" ∨ ucc env = "" ∨ totp env = "") →
      (∀ a b c, Event.totp_login a b c ∉ main env api) ∧
      main env api = [Event.initClient "prod" (consumer_key env) none none]) ∧
    (mpin env = "" →
      (∀ m, Event.totp_validate m ∉ main env api) ∧
      (api.loginRaises = false → mobile_number env ≠ "" → ucc env ≠ "" →
        totp env ≠ "" →
        main env api =
          [Event.initClient "prod" (consumer_key env) none none,
           Event.totp_login (mobile_number env) (ucc env) (totp env)])) := by
  constructor
  · intro hor
    have hall : ([mobile_number env, ucc env, totp env].all truthy) = false := by
      rcases hor with h0 | h0 | h0 <;> simp [truthy, h0]
    exact ⟨fun a b c => by simp [main, hall], by simp [main, hall]⟩
  · intro hp0
    have hp : truthy (mpin env) = false := by simp [truthy, hp0]
    constructor
    · intro m
      cases hm : truthy (mobile_number env) <;>
      cases hu : truthy (ucc env) <;>
      cases ht : truthy (totp env) <;>
      cases hl : api.loginRaises <;>
        simp [main, hm, hu, ht, hl, hp]
    · intro hl hm0 hu0 ht0
      simp [main, truthy, hm0, hu0, ht0, hl, hp0]

/-- Witness for C4: an empty mobile number stops the run before login, and
an unset MPIN stops it right after a successful login. -/
theorem missing_credentials_local_witness :
    ((∀ a b c, Event.totp_login a b c ∉ main envNoMobile apiOk) ∧
      main envNoMobile apiOk =
        [Event.initClient "prod" (consumer_key envNoMobile) none none]) ∧
    ((∀ m, Event.totp_validate m ∉ main envNoMpin apiOk) ∧
      main envNoMpin apiOk =
        [Event.initClient "prod" (consumer_key envNoMpin) none none,
         Event.totp_login (mobile_number envNoMpin) (ucc envNoMpin)
           (totp envNoMpin)]) :=
  ⟨(missing_credentials_local envNoMobile apiOk).1 (Or.inl rfl),
   ⟨((missing_credentials_local envNoMpin apiOk).2 rfl).1,
    ((missing_credentials_local envNoMpin apiOk).2 rfl).2 rfl
      (by decide) (by decide) (by decide)⟩⟩

/-- C5: subscribe is idempotent — for every connected streaming state whose
Subscription Set holds at most one entry for a key, subscribing that key
twice succeeds both times, the second subscribe changes nothing, and the
Subscription Set ends with exactly one entry for the key. -/
theorem subscribe_idempotent (st : StreamState) (k : SubKey)
    (hc : st.connected = true) (hcount : st.subs.count k ≤ 1) :
    ∃ st1 st2, subscribeOp st k = Except.ok st1 ∧
      subscribeOp st1 k = Except.ok st2 ∧ st2 = st1 ∧
      st1.subs.count k = 1 := by
  obtain ⟨c, subs⟩ := st
  simp only [StreamState.mk.injEq] at hc ⊢
  subst hc
  simp only at hcount
  by_cases hk : k ∈ subs
  · refine ⟨⟨true, subs⟩, ⟨true, subs⟩, ?_, ?_, rfl, ?_⟩
    · simp [subscribeOp, hk]
    · simp [subscribeOp, hk]
    · have h1 : 0 < subs.count k := List.count_pos_iff.mpr hk
      simp only
      omega
  · refine ⟨⟨true, subs ++ [k]⟩, ⟨true, subs ++ [k]⟩, ?_, ?_, rfl, ?_⟩
    · simp [subscribeOp, hk]
    · simp [subscribeOp]
    · have h0 : subs.count k = 0 := List.count_eq_zero.mpr hk
      simp [List.count_append, h0]

/-- Witness for C5: subscribing the script's instrument twice from an
empty connected state leaves one entry. -/
theorem subscribe_idempotent_witness :
    ∃ st1 st2, subscribeOp stW k26000 = Except.ok st1 ∧
      subscribeOp st1 k26000 = Except.ok st2 ∧ st2 = st1 ∧
      st1.subs.count k26000 = 1 :=
  subscribe_idempotent stW k26000 rfl (by decide)

/-- C6: unsubscribing an instrument that is not in the Subscription Set of
a connected client is a no-op that returns success, leaving the state
unchanged. -/
theorem unsubscribe_absent_noop (st : StreamState) (k : SubKey)
    (hc : st.connected = true) (h : k ∉ st.subs) :
    unsubscribeOp st k = Except.ok st := by
  obtain ⟨c, subs⟩ := st
  simp only [StreamState.mk.injEq] at hc
  subst hc
  simp only at h
  simp [unsubscribeOp]
  intro a ha hak
  exact h (hak ▸ ha)

/-- Witness for C6: unsubscribing the script's instrument from an empty
connected state returns the state unchanged. -/
theorem unsubscribe_absent_noop_witness :
    unsubscribeOp stW k26000 = Except.ok stW :=
  unsubscribe_absent_noop stW k26000 rfl (by decide)

/-- C7: handler registration is single-slot and last-registration-wins —
assigning a handler for a kind twice equals assigning only the second one —
and every run of `main` that reaches `subscribe` installs exactly the four
handlers (onMessage, onError, onClose, onOpen), immediately and in that
order, before the subscribe call. -/
theorem handler_registration_single_slot (env : Env) (api : ApiBehavior)
    (hsub : Event.subscribe instrument_tokens true false ∈ main env api) :
    (∀ (H : Type) (hs : Handlers H) (k : HandlerKind) (h1 h2 : H),
      setHandlerOp (setHandlerOp hs k h1) k h2 = setHandlerOp hs k h2) ∧
    (∃ l r, main env api =
      l ++ (Event.setHandler HandlerKind.onMessage ::
            Event.setHandler HandlerKind.onError ::
            Event.setHandler HandlerKind.onClose ::
            Event.setHandler HandlerKind.onOpen ::
            Event.subscribe instrument_tokens true false :: r)) := by
  obtain ⟨hm, hu, ht, hl, hp, hv⟩ := subscribe_mem_inv env api hsub
  constructor
  · intro H hs k h1 h2
    funext q
    by_cases hq : q = k <;> simp [setHandlerOp, hq]
  · refine ⟨[Event.initClient "prod" (consumer_key env) none none,
      Event.totp_login (mobile_number env) (ucc env) (totp env),
      Event.totp_validate (mpin env),
      Event.order_report],
      (if api.subscribeRaises = true then []
        else [Event.sleep 30, Event.un_subscribe instrument_tokens true]) ++
        [Event.logout], ?_⟩
    simp [main, hm, hu, ht, hl, hp, hv]

/-- Witness for C7 at the spec's scenario credentials with no call
raising. -/
theorem handler_registration_single_slot_witness :
    ∃ l r, main envW apiOk =
      l ++ (Event.setHandler HandlerKind.onMessage ::
            Event.setHandler HandlerKind.onError ::
            Event.setHandler HandlerKind.onClose ::
            Event.setHandler HandlerKind.onOpen ::
            Event.subscribe instrument_tokens true false :: r) :=
  (handler_registration_single_slot envW apiOk (by decide)).2

/-- C8: once `totp_validate` has returned successfully, `main` reaches the
`logout` call exactly once, whatever order_report, subscribe or
un_subscribe do. -/
theorem logout_exactly_once (env : Env) (api : ApiBehavior)
    (h : Event.totp_validate (mpin env) ∈ main env api)
    (hv : api.validateRaises = false) :
    (main env api).count Event.logout = 1 := by
  obtain ⟨hm, hu, ht, hl, hp, -⟩ := validate_mem_inv env api (mpin env) h
  cases hs : api.subscribeRaises <;>
    simp [main, hm, hu, ht, hl, hp, hv, hs, List.count_cons]

/-- Witness for C8 in a run where order_report, subscribe, un_subscribe and
logout itself all raise. -/
theorem logout_exactly_once_witness :
    (main envW apiStreamFails).count Event.logout = 1 :=
  logout_exactly_once envW apiStreamFails (by decide) rfl

/-- C9: `un_subscribe` is invoked only when the preceding `subscribe` call
returned without raising — its presence in a trace forces
`subscribeRaises = false`, and the subscribe call occurs earlier in the
trace. -/
theorem unsubscribe_only_after_subscribe (env : Env) (api : ApiBehavior)
    (h : Event.un_subscribe instrument_tokens true ∈ main env api) :
    api.subscribeRaises = false ∧
    ∃ l r, main env api =
      l ++ Event.subscribe instrument_tokens true false :: r ∧
      Event.un_subscribe instrument_tokens true ∈ r := by
  obtain ⟨hm, hu, ht, hl, hp, hv, hs⟩ := unsub_mem_inv env api h
  refine ⟨hs, [Event.initClient "prod" (consumer_key env) none none,
    Event.totp_login (mobile_number env) (ucc env) (totp env),
    Event.totp_validate (mpin env),
    Event.order_report,
    Event.setHandler HandlerKind.onMessage,
    Event.setHandler HandlerKind.onError,
    Event.setHandler HandlerKind.onClose,
    Event.setHandler HandlerKind.onOpen],
    [Event.sleep 30, Event.un_subscribe instrument_tokens true, Event.logout],
    ?_, by simp⟩
  simp [main, hm, hu, ht, hl, hp, hv, hs]

/-- Witness for C9 at the spec's scenario credentials with no call
raising. -/
theorem unsubscribe_only_after_subscribe_witness :
    apiOk.subscribeRaises = false ∧
    ∃ l r, main envW apiOk =
      l ++ Event.subscribe instrument_tokens true false :: r ∧
      Event.un_subscribe instrument_tokens true ∈ r :=
  unsubscribe_only_after_subscribe envW apiOk (by decide)

/-- C10: the consumer key is never checked — in every run the very first
interaction constructs the client with
`os.getenv("NEO_CONSUMER_KEY", "YOUR_TOKEN")`, access_token None and
neo_fin_key None; an unset variable yields the placeholder "YOUR_TOKEN";
the rest of the trace does not depend on the consumer key at all; and any
`totp_login` call occurs strictly after the construction. -/
theorem consumer_key_unchecked (env : Env) (api : ApiBehavior) :
    (main env api).get? 0 =
      some (Event.initClient "prod"
        (getenv env.neo_consumer_key "YOUR_TOKEN") none none) ∧
    (env.neo_consumer_key = none → consumer_key env = "YOUR_TOKEN") ∧
    (∀ k, (main { env with neo_consumer_key := k } api).tail =
      (main env api).tail) ∧
    (∀ a b c i, (main env api).get? i = some (Event.totp_login a b c) →
      0 < i) := by
  refine ⟨by simp [main, consumer_key],
    fun h => by simp [consumer_key, h, getenv],
    fun k => ?_, fun a b c i hi => ?_⟩
  · simp [main, mobile_number, ucc, mpin, totp, getenv]
  · cases i with
    | zero => simp [main] at hi
    | succ n => omega

/-- Witness for C10 with NEO_CONSUMER_KEY unset: the client is constructed
with the placeholder, and setting the variable to the empty string changes
nothing after the construction event. -/
theorem consumer_key_unchecked_witness :
    (main envNoCK apiOk).get? 0 =
      some (Event.initClient "prod"
        (getenv envNoCK.neo_consumer_key "YOUR_TOKEN") none none) ∧
    consumer_key envNoCK = "YOUR_TOKEN" ∧
    (main { envNoCK with neo_consumer_key := some "" } apiOk).tail =
      (main envNoCK apiOk).tail :=
  ⟨(consumer_key_unchecked envNoCK apiOk).1,
   (consumer_key_unchecked envNoCK apiOk).2.1 rfl,
   (consumer_key_unchecked envNoCK apiOk).2.2.1 (some "")⟩

end NeoSample
